import Mathlib

/-!
Shallow embedding of src/tempmount.py.

The module defines a single class, TempMount, a Python context manager.
Its methods perform external OS calls (tempfile.mkdtemp, subprocess.check_call
on a mount command, subprocess.call on umount, os.rmdir, os.path.realpath).
We model the outcomes of those external calls with an environment record Env,
record every external call in an event trace, and embed the semantics of the
Python with statement (including implicit exception chaining: when an
exception raised by the exit method supersedes one propagating from the body,
the latter is retained as the context of the former).
-/

/-- Errors a session can raise. calledProcessError is what
subprocess.check_call raises on a non-zero exit status; osError is what
os.rmdir raises on failure; mkdtempError stands for a failure of
tempfile.mkdtemp; attributeError models reading the unset tempdir attribute;
bodyErr wraps an arbitrary error raised by the code inside the with block. -/
inductive PyErr (ε : Type) where
  | calledProcessError (cmd : List String) (returncode : Int)
  | osError (path : String)
  | mkdtempError
  | attributeError
  | bodyErr (e : ε)
deriving DecidableEq

/-- A propagating exception: the active error plus, when the active error
superseded an earlier one, that earlier error as its chained context. -/
structure Raised (ε : Type) where
  err : PyErr ε
  context : Option (PyErr ε)
deriving DecidableEq

/-- Decidable equality for Except, used to evaluate session outcomes on
concrete inputs. -/
def exceptDecEq {α β : Type} [DecidableEq α] [DecidableEq β] :
    (x y : Except α β) → Decidable (x = y)
  | Except.error a, Except.error b =>
      if h : a = b then isTrue (congrArg Except.error h)
      else isFalse (fun hc => h (by injection hc))
  | Except.error _, Except.ok _ => isFalse (fun hc => Except.noConfusion hc)
  | Except.ok _, Except.error _ => isFalse (fun hc => Except.noConfusion hc)
  | Except.ok a, Except.ok b =>
      if h : a = b then isTrue (congrArg Except.ok h)
      else isFalse (fun hc => h (by injection hc))

instance {α β : Type} [DecidableEq α] [DecidableEq β] :
    DecidableEq (Except α β) :=
  exceptDecEq

/-- One external call made during a session, in program order. -/
inductive Event where
  | mkdtempEv (result : Option String)
  | checkCallEv (args : List String) (exitCode : Int)
  | callEv (args : List String) (exitCode : Int)
  | rmdirEv (path : String) (ok : Bool)
  | bodyRunEv (path : String)
deriving DecidableEq

/-- Outcomes of the external OS calls for one session: the directory
tempfile.mkdtemp yields (none means it raises), the exit status of the mount
invocation, the exit status of the umount invocation, whether os.rmdir
succeeds, and the path canonicalization function os.path.realpath. -/
structure Env where
  mkdtempResult : Option String
  mountExit : Int
  umountExit : Int
  rmdirOk : Bool
  realpath : String → String

/-- The immutable constructor arguments of a TempMount object. -/
structure TempMount where
  device : String
  loop : Bool
deriving DecidableEq

/-- TempMount.__init__: device is required, loop is an optional keyword
argument whose default is False. -/
def TempMount.init (device : String) (loop : Option Bool) : TempMount :=
  ⟨device, loop.getD false⟩

/-- The argument list passed to subprocess.check_call in __enter__:
the list named prefix in the source starts as the mount command, gains
the two loopback option words when self.loop is true, and is extended
with the device and the temporary directory. -/
def mountArgs (tm : TempMount) (tempdir : String) : List String :=
  (["mount"] ++ (if tm.loop then ["-o", "loop"] else [])) ++ [tm.device, tempdir]

/-- TempMount.__enter__: assign self.tempdir from tempfile.mkdtemp, run the
mount command through subprocess.check_call (which raises on a non-zero exit
status), and return os.path.realpath of the temporary directory. The Option
String argument and the middle component of the result are the tempdir
attribute before and after the call: it is assigned as soon as mkdtemp
returns, before the mount command runs. -/
def TempMount.enter {ε : Type} (tm : TempMount) (tempdir : Option String)
    (env : Env) : List Event × Option String × Except (PyErr ε) String :=
  match env.mkdtempResult with
  | none => ([Event.mkdtempEv none], tempdir, Except.error PyErr.mkdtempError)
  | some d =>
      if env.mountExit = 0 then
        ([Event.mkdtempEv (some d), Event.checkCallEv (mountArgs tm d) env.mountExit],
          some d, Except.ok (env.realpath d))
      else
        ([Event.mkdtempEv (some d), Event.checkCallEv (mountArgs tm d) env.mountExit],
          some d,
          Except.error (PyErr.calledProcessError (mountArgs tm d) env.mountExit))

/-- TempMount.__exit__: run umount on self.tempdir through subprocess.call,
whose return value (the exit status) is discarded and which does not raise on
a non-zero status, then os.rmdir self.tempdir, which raises OSError on
failure. Reading an unset tempdir attribute would raise AttributeError. -/
def TempMount.exitCM {ε : Type} (tempdir : Option String) (env : Env) :
    List Event × Except (PyErr ε) Unit :=
  match tempdir with
  | none => ([], Except.error PyErr.attributeError)
  | some d =>
      if env.rmdirOk then
        ([Event.callEv ["umount", d] env.umountExit, Event.rmdirEv d true],
          Except.ok ())
      else
        ([Event.callEv ["umount", d] env.umountExit, Event.rmdirEv d false],
          Except.error (PyErr.osError d))

/-- The Python with statement applied to a TempMount object and a body.
If __enter__ raises, the body and __exit__ never run and the error
propagates. Otherwise the body runs on the returned path, then __exit__ runs
unconditionally; since __exit__ returns None (falsy), a body error is
re-raised, except that an error raised by __exit__ itself supersedes it,
keeping the body error as chained context. -/
def withTempMount {ε : Type} (tm : TempMount) (env : Env)
    (body : String → Except ε Unit) : List Event × Except (Raised ε) Unit :=
  match @TempMount.enter ε tm none env with
  | (tr, _, Except.error e) => (tr, Except.error ⟨e, none⟩)
  | (tr, td, Except.ok path) =>
      let bres := body path
      let er := @TempMount.exitCM ε td env
      let trace := tr ++ [Event.bodyRunEv path] ++ er.1
      match bres, er.2 with
      | Except.ok _, Except.ok _ => (trace, Except.ok ())
      | Except.error e, Except.ok _ =>
          (trace, Except.error ⟨PyErr.bodyErr e, none⟩)
      | Except.ok _, Except.error e2 => (trace, Except.error ⟨e2, none⟩)
      | Except.error e, Except.error e2 =>
          (trace, Except.error ⟨e2, some (PyErr.bodyErr e)⟩)

/-- Recognizes a successful tempfile.mkdtemp call in the trace. -/
def isMkdtempSuccess : Event → Bool
  | Event.mkdtempEv (some _) => true
  | _ => false

/-- Recognizes a subprocess.check_call event (the mount invocation). -/
def isCheckCallEv : Event → Bool
  | Event.checkCallEv _ _ => true
  | _ => false

/-- Recognizes a subprocess.call event (the umount invocation). -/
def isCallEv : Event → Bool
  | Event.callEv _ _ => true
  | _ => false

/-- Recognizes an os.rmdir event. -/
def isRmdirEv : Event → Bool
  | Event.rmdirEv _ _ => true
  | _ => false

/-- Recognizes the event marking that the body of the with block ran,
carrying the path that was yielded to it. -/
def isBodyRunEv : Event → Bool
  | Event.bodyRunEv _ => true
  | _ => false

/-- The set of existing directories (by canonical path) after a trace,
starting from fs: mkdtemp creates a fresh directory, a successful rmdir
removes one, and no other event changes the filesystem. -/
def dirsAfter (env : Env) : List Event → List String → List String
  | [], fs => fs
  | Event.mkdtempEv (some d) :: rest, fs =>
      dirsAfter env rest (env.realpath d :: fs)
  | Event.rmdirEv p true :: rest, fs =>
      dirsAfter env rest (fs.erase (env.realpath p))
  | _ :: rest, fs => dirsAfter env rest fs

/-- A path exists as a directory when its canonical form is in the set. -/
def pathExists (env : Env) (fs : List String) (p : String) : Bool :=
  fs.contains (env.realpath p)

/-- Full evaluation of a session once mkdtemp and the mount succeed:
the exact trace and the overall result as a function of the body outcome
and the rmdir outcome. -/
theorem withTempMount_spec {ε : Type} (tm : TempMount) (env : Env)
    (body : String → Except ε Unit) (d : String)
    (hd : env.mkdtempResult = some d) (hm : env.mountExit = 0) :
    withTempMount tm env body =
      ([Event.mkdtempEv (some d), Event.checkCallEv (mountArgs tm d) 0,
        Event.bodyRunEv (env.realpath d),
        Event.callEv ["umount", d] env.umountExit,
        Event.rmdirEv d env.rmdirOk],
       match body (env.realpath d), env.rmdirOk with
       | Except.ok _, true => Except.ok ()
       | Except.ok _, false => Except.error ⟨PyErr.osError d, none⟩
       | Except.error e, true => Except.error ⟨PyErr.bodyErr e, none⟩
       | Except.error e, false =>
           Except.error ⟨PyErr.osError d, some (PyErr.bodyErr e)⟩) := by
  rcases hr : env.rmdirOk with _ | _ <;>
    rcases hb : body (env.realpath d) with e | u <;>
      simp [withTempMount, TempMount.enter, TempMount.exitCM, hd, hm, hr, hb]

/-- Full evaluation of a session when mkdtemp succeeds but the mount command
exits non-zero: check_call raises, the with block is never entered. -/
theorem withTempMount_mountFail {ε : Type} (tm : TempMount) (env : Env)
    (body : String → Except ε Unit) (d : String)
    (hd : env.mkdtempResult = some d) (hm : ¬ env.mountExit = 0) :
    withTempMount tm env body =
      ([Event.mkdtempEv (some d),
        Event.checkCallEv (mountArgs tm d) env.mountExit],
       Except.error ⟨PyErr.calledProcessError (mountArgs tm d) env.mountExit,
         none⟩) := by
  simp [withTempMount, TempMount.enter, hd, hm]

/-- Full evaluation of a session when tempfile.mkdtemp itself raises. -/
theorem withTempMount_mkdtempFail {ε : Type} (tm : TempMount) (env : Env)
    (body : String → Except ε Unit) (hd : env.mkdtempResult = none) :
    withTempMount tm env body =
      ([Event.mkdtempEv none], Except.error ⟨PyErr.mkdtempError, none⟩) := by
  simp [withTempMount, TempMount.enter, hd]

/-- C1: the claim as stated is false at a concrete input. With mkdtemp
yielding /tmp/t, mount succeeding, and os.rmdir failing, a body that raises
error 42 does not see its own error propagate: the overall scope propagates
the release-time OSError (with the body error merely attached as chained
context), so the release-time error substitutes for the body error. -/
theorem C1_counterexample :
    (withTempMount (TempMount.init "/dev/loop0" none)
        ⟨some "/tmp/t", 0, 0, false, id⟩
        (fun _ => Except.error (42 : Nat))).2
      = Except.error ⟨PyErr.osError "/tmp/t", some (PyErr.bodyErr 42)⟩
    ∧ (PyErr.osError "/tmp/t" : PyErr Nat) ≠ PyErr.bodyErr 42 := by
  exact ⟨by decide, by decide⟩

/-- C1 (amended): if the body raises error e after successful acquisition,
then e propagates exactly — unaffected by the umount exit status — whenever
the directory removal step succeeds; if the removal step fails, the removal
error propagates instead, with e preserved as its chained context (so e is
never silently dropped, but it is superseded as the active error). -/
theorem C1_theorem {ε : Type} (tm : TempMount) (env : Env)
    (body : String → Except ε Unit) (d : String) (e : ε)
    (hd : env.mkdtempResult = some d) (hm : env.mountExit = 0)
    (hb : body (env.realpath d) = Except.error e) :
    (withTempMount tm env body).2 =
      if env.rmdirOk then Except.error ⟨PyErr.bodyErr e, none⟩
      else Except.error ⟨PyErr.osError d, some (PyErr.bodyErr e)⟩ := by
  have h := withTempMount_spec tm env body d hd hm
  rcases hr : env.rmdirOk with _ | _ <;> simp [h, hb, hr]

/-- C1 witness: device /dev/sda1 with loop true, umount exiting 32, rmdir
succeeding, body raising 7: the body error propagates unchanged. -/
theorem C1_witness :
    (withTempMount (TempMount.init "/dev/sda1" (some true))
        ⟨some "/tmp/w", 0, 32, true, id⟩
        (fun _ => Except.error (7 : Nat))).2
      = Except.error ⟨PyErr.bodyErr 7, none⟩ := by
  have h := C1_theorem (TempMount.init "/dev/sda1" (some true))
      ⟨some "/tmp/w", 0, 32, true, id⟩
      (fun _ => Except.error (7 : Nat)) "/tmp/w" 7 rfl rfl rfl
  simpa using h

/-- C2: the claim as stated is false at a concrete input. With mkdtemp
yielding /tmp/t but the mount command exiting 32, the temporary directory
was created yet no release attempt occurs: the trace holds no umount
invocation and no rmdir call, because __exit__ never runs when __enter__
raises. -/
theorem C2_counterexample :
    ((withTempMount (TempMount.init "/dev/loop0" none)
        ⟨some "/tmp/t", 32, 0, true, id⟩
        (fun _ => (Except.ok () : Except Nat Unit))).1.any isMkdtempSuccess
      = true)
    ∧ ((withTempMount (TempMount.init "/dev/loop0" none)
        ⟨some "/tmp/t", 32, 0, true, id⟩
        (fun _ => (Except.ok () : Except Nat Unit))).1.any isCallEv = false)
    ∧ ((withTempMount (TempMount.init "/dev/loop0" none)
        ⟨some "/tmp/t", 32, 0, true, id⟩
        (fun _ => (Except.ok () : Except Nat Unit))).1.any isRmdirEv
      = false) := by
  exact ⟨by decide, by decide, by decide⟩

/-- C2 (amended): a release attempt (the umount invocation, and likewise the
directory removal call) occurs if and only if acquisition fully succeeded,
that is, the directory was created AND the mount command exited zero; when
the mount fails after directory creation, no release occurs. -/
theorem C2_theorem {ε : Type} (tm : TempMount) (env : Env)
    (body : String → Except ε Unit) :
    (withTempMount tm env body).1.any isCallEv
        = (env.mkdtempResult.isSome && decide (env.mountExit = 0))
    ∧ (withTempMount tm env body).1.any isRmdirEv
        = (env.mkdtempResult.isSome && decide (env.mountExit = 0)) := by
  rcases hd : env.mkdtempResult with _ | d
  · simp [withTempMount_mkdtempFail tm env body hd, isCallEv, isRmdirEv, hd]
  · by_cases hm : env.mountExit = 0
    · simp [withTempMount_spec tm env body d hd hm, isCallEv, isRmdirEv, hm]
    · simp [withTempMount_mountFail tm env body d hd hm, isCallEv, isRmdirEv,
        hm]

/-- C3: once the scope was entered, on every exit — whatever the body did,
whatever the umount exit status, whatever the rmdir outcome — __exit__ runs
umount on the mount point and then attempts rmdir, in that fixed order; and a
non-zero umount exit status contributes no error: when rmdir succeeds, the
overall outcome is exactly the body outcome. -/
theorem C3_theorem {ε : Type} (tm : TempMount) (env : Env)
    (body : String → Except ε Unit) (d : String)
    (hd : env.mkdtempResult = some d) (hm : env.mountExit = 0) :
    (withTempMount tm env body).1 =
      [Event.mkdtempEv (some d), Event.checkCallEv (mountArgs tm d) 0,
       Event.bodyRunEv (env.realpath d),
       Event.callEv ["umount", d] env.umountExit,
       Event.rmdirEv d env.rmdirOk]
    ∧ (env.rmdirOk = true →
        (withTempMount tm env body).2 =
          match body (env.realpath d) with
          | Except.ok _ => Except.ok ()
          | Except.error e => Except.error ⟨PyErr.bodyErr e, none⟩) := by
  have h := withTempMount_spec tm env body d hd hm
  refine ⟨by rw [h], fun hr => ?_⟩
  rw [h]
  rcases hb : body (env.realpath d) with e | u <;> simp [hr, hb]

/-- C3 witness: device /dev/cdrom, umount exiting 32, rmdir succeeding, body
returning normally: umount then rmdir appear in order in the trace and the
scope ends without error despite the failed umount. -/
theorem C3_witness :
    (withTempMount (TempMount.init "/dev/cdrom" none)
        ⟨some "/tmp/c", 0, 32, true, id⟩
        (fun _ => (Except.ok () : Except Nat Unit))).1 =
      [Event.mkdtempEv (some "/tmp/c"),
       Event.checkCallEv ["mount", "/dev/cdrom", "/tmp/c"] 0,
       Event.bodyRunEv "/tmp/c",
       Event.callEv ["umount", "/tmp/c"] 32,
       Event.rmdirEv "/tmp/c" true]
    ∧ (withTempMount (TempMount.init "/dev/cdrom" none)
        ⟨some "/tmp/c", 0, 32, true, id⟩
        (fun _ => (Except.ok () : Except Nat Unit))).2 = Except.ok () := by
  have h := C3_theorem (TempMount.init "/dev/cdrom" none)
      ⟨some "/tmp/c", 0, 32, true, id⟩
      (fun _ => (Except.ok () : Except Nat Unit)) "/tmp/c" rfl rfl
  exact ⟨by simpa [mountArgs, TempMount.init] using h.1,
    by simpa using h.2 rfl⟩

/-- C4: when mkdtemp succeeds but the mount command exits non-zero, the body
of the with block never runs and the propagated error is exactly the
CalledProcessError carrying the mount invocation and its exit status (the
MountFailed error of the spec), with no context chained. -/
theorem C4_theorem {ε : Type} (tm : TempMount) (env : Env)
    (body : String → Except ε Unit) (d : String)
    (hd : env.mkdtempResult = some d) (hm : ¬ env.mountExit = 0) :
    (withTempMount tm env body).2
        = Except.error
            ⟨PyErr.calledProcessError (mountArgs tm d) env.mountExit, none⟩
    ∧ (withTempMount tm env body).1.any isBodyRunEv = false := by
  have h := withTempMount_mountFail tm env body d hd hm
  refine ⟨by rw [h], ?_⟩
  rw [h]
  simp [isBodyRunEv]

/-- C4 witness: device /nonexistent, mount exiting 32: the propagated error
is the CalledProcessError for the mount command and the body never ran. -/
theorem C4_witness :
    (withTempMount (TempMount.init "/nonexistent" none)
        ⟨some "/tmp/n", 32, 0, true, id⟩
        (fun _ => (Except.ok () : Except Nat Unit))).2
      = Except.error
          ⟨PyErr.calledProcessError ["mount", "/nonexistent", "/tmp/n"] 32,
            none⟩
    ∧ (withTempMount (TempMount.init "/nonexistent" none)
        ⟨some "/tmp/n", 32, 0, true, id⟩
        (fun _ => (Except.ok () : Except Nat Unit))).1.any isBodyRunEv
      = false := by
  have h := C4_theorem (TempMount.init "/nonexistent" none)
      ⟨some "/tmp/n", 32, 0, true, id⟩
      (fun _ => (Except.ok () : Except Nat Unit)) "/tmp/n" rfl (by decide)
  exact ⟨by simpa [mountArgs, TempMount.init] using h.1, h.2⟩

/-- C5: the claim as stated is false at a concrete input. With mkdtemp
yielding the non-empty path /tmp/t and the mount command exiting 32,
acquisition has not completed successfully, yet the tempdir attribute (the
mountPoint) is already assigned that non-empty path, because __enter__
assigns it before running the mount command. -/
theorem C5_counterexample :
    (@TempMount.enter Nat (TempMount.init "/dev/sda1" none) none
        ⟨some "/tmp/t", 32, 0, true, id⟩).2.1 = some "/tmp/t"
    ∧ "/tmp/t" ≠ ""
    ∧ (@TempMount.enter Nat (TempMount.init "/dev/sda1" none) none
        ⟨some "/tmp/t", 32, 0, true, id⟩).2.2
        = Except.error
            (PyErr.calledProcessError ["mount", "/dev/sda1", "/tmp/t"] 32) := by
  exact ⟨by decide, by decide, by decide⟩

/-- C5 (amended): the mountPoint attribute is assigned (holding the path
mkdtemp returned) exactly when directory creation succeeded; successful
completion of the whole acquisition is not required, since the attribute is
set before the mount command runs. -/
theorem C5_theorem {ε : Type} (tm : TempMount) (env : Env) :
    (@TempMount.enter ε tm none env).2.1 = env.mkdtempResult := by
  rcases hd : env.mkdtempResult with _ | d
  · simp [TempMount.enter, hd]
  · by_cases hm : env.mountExit = 0 <;> simp [TempMount.enter, hd, hm]

/-- C6: when the directory was created but the mount command exits non-zero,
the directory is left in place (the filesystem after the session still holds
exactly the created directory), no umount and no rmdir call ever happens
(Release is never invoked since the scope is never entered), and the mount
error propagates. -/
theorem C6_theorem {ε : Type} (tm : TempMount) (env : Env)
    (body : String → Except ε Unit) (d : String)
    (hd : env.mkdtempResult = some d) (hm : ¬ env.mountExit = 0) :
    dirsAfter env (withTempMount tm env body).1 [] = [env.realpath d]
    ∧ (withTempMount tm env body).1.any isCallEv = false
    ∧ (withTempMount tm env body).1.any isRmdirEv = false := by
  have h := withTempMount_mountFail tm env body d hd hm
  rw [h]
  simp [dirsAfter, isCallEv, isRmdirEv]

/-- C6 witness: device /dev/sdb1, mount exiting 1: the created directory
/tmp/m survives the failed session untouched and no release call occurs. -/
theorem C6_witness :
    dirsAfter ⟨some "/tmp/m", 1, 0, true, id⟩
        (withTempMount (TempMount.init "/dev/sdb1" none)
          ⟨some "/tmp/m", 1, 0, true, id⟩
          (fun _ => (Except.ok () : Except Nat Unit))).1 [] = ["/tmp/m"]
    ∧ (withTempMount (TempMount.init "/dev/sdb1" none)
        ⟨some "/tmp/m", 1, 0, true, id⟩
        (fun _ => (Except.ok () : Except Nat Unit))).1.any isCallEv = false
    ∧ (withTempMount (TempMount.init "/dev/sdb1" none)
        ⟨some "/tmp/m", 1, 0, true, id⟩
        (fun _ => (Except.ok () : Except Nat Unit))).1.any isRmdirEv
      = false := by
  have h := C6_theorem (TempMount.init "/dev/sdb1" none)
      ⟨some "/tmp/m", 1, 0, true, id⟩
      (fun _ => (Except.ok () : Except Nat Unit)) "/tmp/m" rfl (by decide)
  exact ⟨by simpa using h.1, h.2.1, h.2.2⟩

/-- C7: whenever the directory was created, exactly one mount invocation
appears in the trace and its arguments are exactly the mount command, the
loopback option words when and only when the loop flag is true, the device,
and the temporary directory; and a TempMount constructed without the loop
argument has loop equal to false. -/
theorem C7_theorem {ε : Type} (tm : TempMount) (env : Env)
    (body : String → Except ε Unit) (d : String)
    (hd : env.mkdtempResult = some d) :
    (withTempMount tm env body).1.filter isCheckCallEv
        = [Event.checkCallEv
            (if tm.loop then ["mount", "-o", "loop", tm.device, d]
             else ["mount", tm.device, d]) env.mountExit]
    ∧ ∀ dev : String, (TempMount.init dev none).loop = false := by
  have hargs : mountArgs tm d =
      (if tm.loop then ["mount", "-o", "loop", tm.device, d]
       else ["mount", tm.device, d]) := by
    rcases hl : tm.loop with _ | _ <;> simp [mountArgs, hl]
  refine ⟨?_, fun dev => rfl⟩
  by_cases hm : env.mountExit = 0
  · rw [withTempMount_spec tm env body d hd hm]
    simp [isCheckCallEv, hargs, hm]
  · rw [withTempMount_mountFail tm env body d hd hm]
    simp [isCheckCallEv, hargs]

/-- C7 witness: device /dev/loop0 with loop true and mount succeeding: the
single mount invocation carries the loopback option words; and a session for
device /dev/x built without the loop argument has loop false. -/
theorem C7_witness :
    (withTempMount (TempMount.init "/dev/loop0" (some true))
        ⟨some "/tmp/t", 0, 0, true, id⟩
        (fun _ => (Except.ok () : Except Nat Unit))).1.filter isCheckCallEv
      = [Event.checkCallEv ["mount", "-o", "loop", "/dev/loop0", "/tmp/t"] 0]
    ∧ (TempMount.init "/dev/x" none).loop = false := by
  have h := C7_theorem (TempMount.init "/dev/loop0" (some true))
      ⟨some "/tmp/t", 0, 0, true, id⟩
      (fun _ => (Except.ok () : Except Nat Unit)) "/tmp/t" rfl
  exact ⟨by simpa [TempMount.init] using h.1, h.2 "/dev/x"⟩

/-- C8: when directory creation and the mount succeed, __enter__ returns the
canonicalized (symlink-resolved) form of the freshly created temporary
directory, and — canonicalization being idempotent — that returned path
exists as a directory at the time it is returned, whatever directories
existed beforehand. -/
theorem C8_theorem {ε : Type} (tm : TempMount) (env : Env) (d : String)
    (fs0 : List String) (hd : env.mkdtempResult = some d)
    (hm : env.mountExit = 0)
    (hidem : env.realpath (env.realpath d) = env.realpath d) :
    (@TempMount.enter ε tm none env).2.2 = Except.ok (env.realpath d)
    ∧ pathExists env
        (dirsAfter env (@TempMount.enter ε tm none env).1 fs0)
        (env.realpath d) = true := by
  constructor
  · simp [TempMount.enter, hd, hm]
  · simp [TempMount.enter, hd, hm, dirsAfter, pathExists, hidem]

/-- C8 witness: device /dev/sdc, canonicalization the identity, mkdtemp
yielding /tmp/r: acquisition returns /tmp/r and that directory exists. -/
theorem C8_witness :
    (@TempMount.enter Nat (TempMount.init "/dev/sdc" none) none
        ⟨some "/tmp/r", 0, 0, true, id⟩).2.2 = Except.ok "/tmp/r"
    ∧ pathExists ⟨some "/tmp/r", 0, 0, true, id⟩
        (dirsAfter ⟨some "/tmp/r", 0, 0, true, id⟩
          (@TempMount.enter Nat (TempMount.init "/dev/sdc" none) none
            ⟨some "/tmp/r", 0, 0, true, id⟩).1 [])
        "/tmp/r" = true := by
  have h := @C8_theorem Nat (TempMount.init "/dev/sdc" none)
      ⟨some "/tmp/r", 0, 0, true, id⟩ "/tmp/r" [] rfl rfl rfl
  exact ⟨by simpa using h.1, by simpa using h.2⟩

/-- C9: the claim as stated is false at a concrete input. With
canonicalization prepending /private (a symlinked temporary area), the body
is yielded /private/tmp/t while the umount invocation receives /tmp/t — the
stored, uncanonicalized directory — which is not the yielded path. -/
theorem C9_counterexample :
    (withTempMount (TempMount.init "/dev/loop0" (some true))
        ⟨some "/tmp/t", 0, 0, true, fun p => "/private" ++ p⟩
        (fun _ => (Except.ok () : Except Nat Unit))).1.filter isBodyRunEv
      = [Event.bodyRunEv "/private/tmp/t"]
    ∧ (withTempMount (TempMount.init "/dev/loop0" (some true))
        ⟨some "/tmp/t", 0, 0, true, fun p => "/private" ++ p⟩
        (fun _ => (Except.ok () : Except Nat Unit))).1.filter isCallEv
      = [Event.callEv ["umount", "/tmp/t"] 0]
    ∧ ("/private/tmp/t" : String) ≠ "/tmp/t" := by
  exact ⟨by decide, by decide, by decide⟩

/-- C9 (amended): at release, the single umount invocation receives the
stored temporary directory path as created, while the body was yielded its
canonicalized form; the two coincide exactly when canonicalization leaves
the created path unchanged. -/
theorem C9_theorem {ε : Type} (tm : TempMount) (env : Env)
    (body : String → Except ε Unit) (d : String)
    (hd : env.mkdtempResult = some d) (hm : env.mountExit = 0) :
    (withTempMount tm env body).1.filter isCallEv
        = [Event.callEv ["umount", d] env.umountExit]
    ∧ (withTempMount tm env body).1.filter isBodyRunEv
        = [Event.bodyRunEv (env.realpath d)] := by
  have h := withTempMount_spec tm env body d hd hm
  rw [h]
  constructor <;> simp [isCallEv, isBodyRunEv]

/-- C9 witness: canonicalization the identity, umount exiting 7: the umount
invocation and the yielded path both use /tmp/y. -/
theorem C9_witness :
    (withTempMount (TempMount.init "/dev/sda2" none)
        ⟨some "/tmp/y", 0, 7, true, id⟩
        (fun _ => (Except.ok () : Except Nat Unit))).1.filter isCallEv
      = [Event.callEv ["umount", "/tmp/y"] 7]
    ∧ (withTempMount (TempMount.init "/dev/sda2" none)
        ⟨some "/tmp/y", 0, 7, true, id⟩
        (fun _ => (Except.ok () : Except Nat Unit))).1.filter isBodyRunEv
      = [Event.bodyRunEv "/tmp/y"] := by
  have h := C9_theorem (TempMount.init "/dev/sda2" none)
      ⟨some "/tmp/y", 0, 7, true, id⟩
      (fun _ => (Except.ok () : Except Nat Unit)) "/tmp/y" rfl rfl
  exact ⟨h.1, by simpa using h.2⟩

/-- C10: the claim as stated is false at a concrete input: repeated
acquisition on the same session object is neither disallowed nor failing
fast. A first __enter__ succeeds on /tmp/a; a second __enter__ on the same
object then also succeeds, performs a second mount invocation, and
overwrites the stored tempdir with /tmp/b. -/
theorem C10_counterexample :
    @TempMount.enter Nat (TempMount.init "/dev/loop0" none) none
        ⟨some "/tmp/a", 0, 0, true, id⟩
      = ([Event.mkdtempEv (some "/tmp/a"),
          Event.checkCallEv ["mount", "/dev/loop0", "/tmp/a"] 0],
         some "/tmp/a", Except.ok "/tmp/a")
    ∧ @TempMount.enter Nat (TempMount.init "/dev/loop0" none) (some "/tmp/a")
        ⟨some "/tmp/b", 0, 0, true, id⟩
      = ([Event.mkdtempEv (some "/tmp/b"),
          Event.checkCallEv ["mount", "/dev/loop0", "/tmp/b"] 0],
         some "/tmp/b", Except.ok "/tmp/b") := by
  exact ⟨by decide, by decide⟩

/-- C10 (amended): within one scoped use, at most one mount invocation
occurs — exactly one once directory creation succeeds — and at most one
umount invocation occurs; however, repeated acquisition is not prevented:
__enter__ succeeds again from any prior attribute state, including an
already-acquired one. -/
theorem C10_theorem {ε : Type} (tm : TempMount) (env env2 : Env)
    (body : String → Except ε Unit) (d2 : String) (td0 : Option String)
    (h2 : env2.mkdtempResult = some d2) (h3 : env2.mountExit = 0) :
    ((withTempMount tm env body).1.filter isCheckCallEv).length
        = (if env.mkdtempResult.isSome then 1 else 0)
    ∧ ((withTempMount tm env body).1.filter isCallEv).length ≤ 1
    ∧ (@TempMount.enter ε tm td0 env2).2.2 = Except.ok (env2.realpath d2) := by
  refine ⟨?_, ?_, by simp [TempMount.enter, h2, h3]⟩
  · rcases hd : env.mkdtempResult with _ | d
    · simp [withTempMount_mkdtempFail tm env body hd, isCheckCallEv]
    · by_cases hm : env.mountExit = 0
      · simp [withTempMount_spec tm env body d hd hm, isCheckCallEv]
      · simp [withTempMount_mountFail tm env body d hd hm, isCheckCallEv]
  · rcases hd : env.mkdtempResult with _ | d
    · simp [withTempMount_mkdtempFail tm env body hd, isCallEv]
    · by_cases hm : env.mountExit = 0
      · simp [withTempMount_spec tm env body d hd hm, isCallEv]
      · simp [withTempMount_mountFail tm env body d hd hm, isCallEv]

/-- C10 witness: a full session on /tmp/a performs exactly one mount
invocation, and a further __enter__ attempted while the attribute still
holds a previous directory succeeds again rather than failing fast. -/
theorem C10_witness :
    ((withTempMount (TempMount.init "/dev/loop0" none)
        ⟨some "/tmp/a", 0, 0, true, id⟩
        (fun _ => (Except.ok () : Except Nat Unit))).1.filter
          isCheckCallEv).length = 1
    ∧ (@TempMount.enter Nat (TempMount.init "/dev/loop0" none)
        (some "/tmp/prev") ⟨some "/tmp/b", 0, 0, true, id⟩).2.2
      = Except.ok "/tmp/b" := by
  have h := C10_theorem (TempMount.init "/dev/loop0" none)
      ⟨some "/tmp/a", 0, 0, true, id⟩ ⟨some "/tmp/b", 0, 0, true, id⟩
      (fun _ => (Except.ok () : Except Nat Unit)) "/tmp/b" (some "/tmp/prev")
      rfl rfl
  exact ⟨by simpa using h.1, by simpa using h.2.2⟩
